import Mathlib

/-!
Shallow embedding of the `rv_gunnerus_4dof` kinematics and thruster
libraries (`kinematics.py` and `thrusters.py`) over the real numbers,
together with theorems settling the specified properties.

Machine floats are modelled by `ℝ`; `np.sin`, `np.cos`, `np.tan`,
`np.sqrt` become `Real.sin`, `Real.cos`, `Real.tan`, `Real.sqrt`;
`np.arctan2 y x` becomes the principal argument of the complex number
`x + y·i`, which agrees with numpy's convention on all real inputs
(including `arctan2 0 0 = 0` and `arctan2 0 (-1) = π`).
-/

open Real

namespace RVG4dof

/-- Two-argument arctangent: the principal argument of `x + y·i`,
matching `np.arctan2(y, x)` on real (non-float-special) inputs. -/
noncomputable def arctan2 (y x : ℝ) : ℝ :=
  Complex.arg ((x : ℂ) + (y : ℂ) * Complex.I)

/-- `kinematics.rad2pipi`: wraps an angle via `arctan2(sin a, cos a)`. -/
noncomputable def rad2pipi (angle : ℝ) : ℝ :=
  arctan2 (Real.sin angle) (Real.cos angle)

/-- `kinematics.Rotx`: elementary rotation about the x-axis. -/
noncomputable def Rotx (angle : ℝ) : Matrix (Fin 3) (Fin 3) ℝ :=
  !![1, 0, 0;
     0, Real.cos angle, -Real.sin angle;
     0, Real.sin angle, Real.cos angle]

/-- `kinematics.Roty`: elementary rotation about the y-axis. -/
noncomputable def Roty (angle : ℝ) : Matrix (Fin 3) (Fin 3) ℝ :=
  !![Real.cos angle, 0, Real.sin angle;
     0, 1, 0;
     -Real.sin angle, 0, Real.cos angle]

/-- `kinematics.Rotz`: elementary rotation about the z-axis. -/
noncomputable def Rotz (angle : ℝ) : Matrix (Fin 3) (Fin 3) ℝ :=
  !![Real.cos angle, -Real.sin angle, 0;
     Real.sin angle, Real.cos angle, 0;
     0, 0, 1]

/-- `kinematics.Rotzyx`: `Rotz(angles[2]) @ Roty(angles[1]) @ Rotx(angles[0])`. -/
noncomputable def Rotzyx (angles : Fin 3 → ℝ) : Matrix (Fin 3) (Fin 3) ℝ :=
  Rotz (angles 2) * Roty (angles 1) * Rotx (angles 0)

/-- `kinematics.Smat`: skew-symmetric cross-product operator matrix. -/
def Smat (x : Fin 3 → ℝ) : Matrix (Fin 3) (Fin 3) ℝ :=
  !![0, -x 2, x 1;
     x 2, 0, -x 0;
     -x 1, x 0, 0]

/-- `kinematics.dot_eta3`: `Rotz(psi) @ nu`. -/
noncomputable def dot_eta3 (psi : ℝ) (nu : Fin 3 → ℝ) : Fin 3 → ℝ :=
  (Rotz psi).mulVec nu

/-- `kinematics.Rot_planar`: planar SO(2) rotation matrix. -/
noncomputable def Rot_planar (angle : ℝ) : Matrix (Fin 2) (Fin 2) ℝ :=
  !![Real.cos angle, -Real.sin angle;
     Real.sin angle, Real.cos angle]

/-- `kinematics.dot_eta4`: 4-DOF kinematics, planar rotation block plus
identity on heave and yaw rate. -/
noncomputable def dot_eta4 (psi : ℝ) (nu : Fin 4 → ℝ) : Fin 4 → ℝ :=
  (!![Real.cos psi, -Real.sin psi, 0, 0;
      Real.sin psi, Real.cos psi, 0, 0;
      0, 0, 1, 0;
      0, 0, 0, 1] : Matrix (Fin 4) (Fin 4) ℝ).mulVec nu

/-- `kinematics.dot_eta6`: linear part `Rotzyx(eta[3:6]) @ nu[0:3]`,
angular part `T @ nu[3:6]` with the Euler-rate matrix `T` exactly as
written in the source (divisions by `cos theta` included, no
singularity check anywhere). -/
noncomputable def dot_eta6 (eta nu : Fin 6 → ℝ) : Fin 6 → ℝ :=
  let Rzyx := Rotzyx ![eta 3, eta 4, eta 5]
  let phi := eta 3
  let theta := eta 4
  let T : Matrix (Fin 3) (Fin 3) ℝ :=
    !![1, Real.sin phi * Real.tan theta, Real.cos phi * Real.tan theta;
       0, Real.cos phi, -Real.sin phi;
       0, Real.sin phi / Real.cos theta, Real.cos phi / Real.cos theta]
  let lin := Rzyx.mulVec ![nu 0, nu 1, nu 2]
  let ang := T.mulVec ![nu 3, nu 4, nu 5]
  ![lin 0, lin 1, lin 2, ang 0, ang 1, ang 2]

/-- `thrusters.forceAzi3`: computes the 6-DOF vector
`force * concat(R@eps1, S@R@eps1)` and keeps components 0, 1, 5
(the source recomputes the 6-DOF vector rather than calling
`forceAzi6`). -/
noncomputable def forceAzi3 (force azi : ℝ) (loc : Fin 3 → ℝ) : Fin 3 → ℝ :=
  let eps1 : Fin 3 → ℝ := ![1, 0, 0]
  let S := Smat loc
  let R := Rotz azi
  let lin := R.mulVec eps1
  let mom := S.mulVec (R.mulVec eps1)
  let tau6 : Fin 6 → ℝ :=
    force • ![lin 0, lin 1, lin 2, mom 0, mom 1, mom 2]
  ![tau6 0, tau6 1, tau6 5]

/-- `thrusters.forceAzi6`: 6-DOF loads
`force * concat(Rotz(azi)@eps1, Smat(loc)@Rotz(azi)@eps1)`. -/
noncomputable def forceAzi6 (force azi : ℝ) (loc : Fin 3 → ℝ) : Fin 6 → ℝ :=
  let eps1 : Fin 3 → ℝ := ![1, 0, 0]
  let S := Smat loc
  let R := Rotz azi
  let lin := R.mulVec eps1
  let mom := S.mulVec (R.mulVec eps1)
  force • ![lin 0, lin 1, lin 2, mom 0, mom 1, mom 2]

/-- `thrusters.RVGazimuth_man`: the numeric result `(Fx, Fy)`, exactly
the computation of the source (the `print` diagnostic has no effect on
the returned value). -/
noncomputable def RVGazimuth_man (u v angle revs : ℝ) : ℝ × ℝ :=
  let V := Real.sqrt (u ^ 2 + v ^ 2)
  let inflow_angle := arctan2 v u
  let aoa := -inflow_angle + angle
  let Cd := 0.3 + |aoa| * 0.3
  let Cl := 0.5 * Real.sin (2 * aoa)
  let A : ℝ := 9
  let rho : ℝ := 1000
  let Fdrag := 0.5 * rho * A * Cd * V ^ 2
  let Flift := 0.5 * rho * A * Cl * V ^ 2
  let Ffoilx := -Fdrag * Real.cos aoa + Flift * Real.sin aoa
  let Ffoily := Flift * Real.cos aoa + Fdrag * Real.sin aoa
  let Ct : ℝ := 2.2 * 1
  let Fthrust := Ct * revs ^ 2
  (Fthrust * Real.cos angle + Ffoilx * Real.cos angle - Ffoily * Real.sin angle,
   Fthrust * Real.sin angle + Ffoilx * Real.sin angle + Ffoily * Real.cos angle)

/-- `thrusters.RVGazimuth_man` with its diagnostic channel made
explicit: the second component records whether the source's warning
branch (`np.abs(aoa) > aoa_max` with `aoa_max = 35·π/180`) fires; the
first component is the returned pair, computed identically in either
case since the branch only prints. -/
noncomputable def RVGazimuth_man_full (u v angle revs : ℝ) : (ℝ × ℝ) × Bool :=
  let inflow_angle := arctan2 v u
  let aoa := -inflow_angle + angle
  let aoa_max := 35 * Real.pi / 180
  let warned : Bool := @decide (|aoa| > aoa_max) (Classical.propDecidable _)
  (RVGazimuth_man u v angle revs, warned)

/-!
### Helper lemmas
-/

open Matrix

lemma rad2pipi_mem_Ioc (a : ℝ) : rad2pipi a ∈ Set.Ioc (-Real.pi) Real.pi :=
  Complex.arg_mem_Ioc _

lemma rad2pipi_eq_self {θ : ℝ} (hθ : θ ∈ Set.Ioc (-Real.pi) Real.pi) :
    rad2pipi θ = θ := by
  unfold rad2pipi arctan2
  rw [Complex.ofReal_cos, Complex.ofReal_sin]
  exact Complex.arg_cos_add_sin_mul_I hθ

lemma Rotx_transpose (a : ℝ) :
    (Rotx a)ᵀ = !![1, 0, 0;
                   0, Real.cos a, Real.sin a;
                   0, -Real.sin a, Real.cos a] := by
  ext i j
  fin_cases i <;> fin_cases j <;> rfl

lemma Roty_transpose (a : ℝ) :
    (Roty a)ᵀ = !![Real.cos a, 0, -Real.sin a;
                   0, 1, 0;
                   Real.sin a, 0, Real.cos a] := by
  ext i j
  fin_cases i <;> fin_cases j <;> rfl

lemma Rotz_transpose (a : ℝ) :
    (Rotz a)ᵀ = !![Real.cos a, Real.sin a, 0;
                   -Real.sin a, Real.cos a, 0;
                   0, 0, 1] := by
  ext i j
  fin_cases i <;> fin_cases j <;> rfl

lemma Rotx_transpose_mul_self (a : ℝ) : (Rotx a)ᵀ * Rotx a = 1 := by
  rw [Rotx_transpose]
  simp only [Rotx, Matrix.mul_fin_three, Matrix.one_fin_three]
  ext i j
  fin_cases i <;> fin_cases j <;>
    simp [Matrix.vecHead, Matrix.vecTail] <;>
    linarith [Real.sin_sq_add_cos_sq a]

lemma Roty_transpose_mul_self (a : ℝ) : (Roty a)ᵀ * Roty a = 1 := by
  rw [Roty_transpose]
  simp only [Roty, Matrix.mul_fin_three, Matrix.one_fin_three]
  ext i j
  fin_cases i <;> fin_cases j <;>
    simp [Matrix.vecHead, Matrix.vecTail] <;>
    linarith [Real.sin_sq_add_cos_sq a]

lemma Rotz_transpose_mul_self (a : ℝ) : (Rotz a)ᵀ * Rotz a = 1 := by
  rw [Rotz_transpose]
  simp only [Rotz, Matrix.mul_fin_three, Matrix.one_fin_three]
  ext i j
  fin_cases i <;> fin_cases j <;>
    simp [Matrix.vecHead, Matrix.vecTail] <;>
    linarith [Real.sin_sq_add_cos_sq a]

lemma Rotx_det (a : ℝ) : (Rotx a).det = 1 := by
  simp [Rotx, Matrix.det_fin_three]
  linarith [Real.sin_sq_add_cos_sq a]

lemma Roty_det (a : ℝ) : (Roty a).det = 1 := by
  simp [Roty, Matrix.det_fin_three]
  linarith [Real.sin_sq_add_cos_sq a]

lemma Rotz_det (a : ℝ) : (Rotz a).det = 1 := by
  simp [Rotz, Matrix.det_fin_three]
  linarith [Real.sin_sq_add_cos_sq a]

lemma Rotx_zero : Rotx 0 = 1 := by
  ext i j
  fin_cases i <;> fin_cases j <;>
    simp [Rotx, Matrix.one_apply, Matrix.vecHead, Matrix.vecTail]

lemma Roty_zero : Roty 0 = 1 := by
  ext i j
  fin_cases i <;> fin_cases j <;>
    simp [Roty, Matrix.one_apply, Matrix.vecHead, Matrix.vecTail]

lemma Rotz_zero : Rotz 0 = 1 := by
  ext i j
  fin_cases i <;> fin_cases j <;>
    simp [Rotz, Matrix.one_apply, Matrix.vecHead, Matrix.vecTail]

lemma Rotx_neg (a : ℝ) : Rotx (-a) = (Rotx a)ᵀ := by
  rw [Rotx_transpose]
  ext i j
  fin_cases i <;> fin_cases j <;> simp [Rotx]

lemma Roty_neg (a : ℝ) : Roty (-a) = (Roty a)ᵀ := by
  rw [Roty_transpose]
  ext i j
  fin_cases i <;> fin_cases j <;> simp [Roty]

lemma Rotz_neg (a : ℝ) : Rotz (-a) = (Rotz a)ᵀ := by
  rw [Rotz_transpose]
  ext i j
  fin_cases i <;> fin_cases j <;> simp [Rotz]

lemma Rotx_inv (a : ℝ) : (Rotx a)⁻¹ = Rotx (-a) := by
  rw [Rotx_neg]
  exact Matrix.inv_eq_right_inv
    (Matrix.mul_eq_one_comm.mp (Rotx_transpose_mul_self a))

lemma Roty_inv (a : ℝ) : (Roty a)⁻¹ = Roty (-a) := by
  rw [Roty_neg]
  exact Matrix.inv_eq_right_inv
    (Matrix.mul_eq_one_comm.mp (Roty_transpose_mul_self a))

lemma Rotz_inv (a : ℝ) : (Rotz a)⁻¹ = Rotz (-a) := by
  rw [Rotz_neg]
  exact Matrix.inv_eq_right_inv
    (Matrix.mul_eq_one_comm.mp (Rotz_transpose_mul_self a))

lemma Rotzyx_transpose_mul_self (angles : Fin 3 → ℝ) :
    (Rotzyx angles)ᵀ * Rotzyx angles = 1 := by
  have hx := Rotx_transpose_mul_self (angles 0)
  have hy := Roty_transpose_mul_self (angles 1)
  have hz := Rotz_transpose_mul_self (angles 2)
  simp only [Rotzyx, Matrix.transpose_mul, Matrix.mul_assoc]
  rw [← Matrix.mul_assoc ((Rotz (angles 2))ᵀ), hz, Matrix.one_mul]
  rw [← Matrix.mul_assoc ((Roty (angles 1))ᵀ), hy, Matrix.one_mul]
  exact hx

lemma Rotzyx_det (angles : Fin 3 → ℝ) : (Rotzyx angles).det = 1 := by
  simp [Rotzyx, Matrix.det_mul, Rotx_det, Roty_det, Rotz_det]

lemma Rotzyx_zero : Rotzyx ![0, 0, 0] = 1 := by
  simp [Rotzyx, Rotx_zero, Roty_zero, Rotz_zero]

lemma Rotzyx_inv (angles : Fin 3 → ℝ) :
    (Rotzyx angles)⁻¹ = (Rotzyx angles)ᵀ :=
  Matrix.inv_eq_right_inv
    (Matrix.mul_eq_one_comm.mp (Rotzyx_transpose_mul_self angles))

/-!
### Claim theorems
-/

lemma vec6_apply_three {α : Type} (a b c d e f : α) :
    ![a, b, c, d, e, f] 3 = d := rfl

lemma vec6_apply_four {α : Type} (a b c d e f : α) :
    ![a, b, c, d, e, f] 4 = e := rfl

lemma vec6_apply_five {α : Type} (a b c d e f : α) :
    ![a, b, c, d, e, f] 5 = f := rfl

lemma arctan2_zero_zero : arctan2 0 0 = 0 := by
  unfold arctan2
  norm_num

lemma RVGazimuth_man_calib : RVGazimuth_man 5 0 0 165 = (26145, 0) := by
  have hsq : Real.sqrt ((5:ℝ) ^ 2 + 0 ^ 2) = 5 := by
    rw [show ((5:ℝ) ^ 2 + 0 ^ 2) = 5 ^ 2 by norm_num]
    exact Real.sqrt_sq (by norm_num)
  have harg : arctan2 0 5 = 0 := by
    unfold arctan2
    norm_num
  simp only [RVGazimuth_man, harg, hsq]
  norm_num [Real.sin_zero, Real.cos_zero]

/-- Claim C1 (counterexample to the claim as stated): at the singular
pitch `θ = π/2` the source's `dot_eta6` does not fail: it has no
singularity check and no error path at all, and here returns the
numeric zero vector for zero body velocity instead of a
`SingularTransform` error. -/
theorem C1_counterexample :
    dot_eta6 ![0, 0, 0, 0, Real.pi / 2, 0] ![0, 0, 0, 0, 0, 0] =
      ![0, 0, 0, 0, 0, 0] := by
  funext i
  fin_cases i <;>
    simp [dot_eta6, Rotzyx, Rotx, Roty, Rotz, Matrix.mulVec,
      Matrix.dotProduct, Fin.sum_univ_three, Matrix.mul_apply]

/-- Claim C1 (amended): `dot_eta6` performs no singularity detection and
raises no error at pitch `θ = π/2`; it returns a numeric result for
every pose, e.g. with zero angular body rates the result is the rotated
linear velocity concatenated with zeros. -/
theorem C1_dot_eta6_total_at_singular_pitch
    (x y z phi psi v1 v2 v3 : ℝ) :
    dot_eta6 ![x, y, z, phi, Real.pi / 2, psi] ![v1, v2, v3, 0, 0, 0] =
      ![(Rotzyx ![phi, Real.pi / 2, psi]).mulVec ![v1, v2, v3] 0,
        (Rotzyx ![phi, Real.pi / 2, psi]).mulVec ![v1, v2, v3] 1,
        (Rotzyx ![phi, Real.pi / 2, psi]).mulVec ![v1, v2, v3] 2,
        0, 0, 0] := by
  funext i
  fin_cases i <;>
    simp [dot_eta6, Matrix.mulVec, Matrix.dotProduct, Fin.sum_univ_three,
      vec6_apply_three, vec6_apply_four, vec6_apply_five]

/-- Claim C2: for every force `f`, azimuth `a` and location `loc`,
`forceAzi3 f a loc` equals exactly the components 0, 1 and 5 of
`forceAzi6 f a loc`. -/
theorem C2_forceAzi3_eq_forceAzi6_sel (f a : ℝ) (loc : Fin 3 → ℝ) :
    forceAzi3 f a loc =
      ![forceAzi6 f a loc 0, forceAzi6 f a loc 1, forceAzi6 f a loc 5] := by
  funext i
  fin_cases i <;> rfl

/-- Claim C8: `Rotzyx angles` is the product
`Rotz (angles 2) * Roty (angles 1) * Rotx (angles 0)`, i.e. yaw-pitch-roll
composition with index 0 = roll, 1 = pitch, 2 = yaw. -/
theorem C8_Rotzyx_composition (angles : Fin 3 → ℝ) :
    Rotzyx angles = Rotz (angles 2) * Roty (angles 1) * Rotx (angles 0) :=
  rfl

/-- Claim C9: `Smat x` is antisymmetric with zero diagonal and acts on
vectors as the cross product: `Smat x *ᵥ y = x ×₃ y`. -/
theorem C9_Smat_skew_cross (x y : Fin 3 → ℝ) :
    (Smat x)ᵀ = -Smat x ∧ (∀ i, Smat x i i = 0) ∧
      (Smat x).mulVec y = crossProduct x y := by
  refine ⟨?_, ?_, ?_⟩
  · ext i j
    fin_cases i <;> fin_cases j <;>
      simp [Smat]
  · intro i
    fin_cases i <;> simp [Smat]
  · funext i
    fin_cases i <;>
      simp [Smat, Matrix.mulVec, Matrix.dotProduct, Fin.sum_univ_three,
        cross_apply] <;> ring

/-- Claim C3 (counterexample to the claim as stated): at
`u = 5, v = 0, angle = 0, revs = 165` the surge force returned by
`RVGazimuth_man` is `26145`, not `Ct·165² = 59895`: the foil drag term
`Fdrag = 0.5·1000·9·0.3·5² = 33750` is subtracted from the propeller
thrust. -/
theorem C3_counterexample :
    (RVGazimuth_man 5 0 0 165).1 ≠ 2.2 * 165 ^ 2 := by
  rw [RVGazimuth_man_calib]
  norm_num

/-- Claim C3 (amended): `RVGazimuth_man 5 0 0 165` returns
`Fx = Ct·165² − Fdrag = 59895 − 33750 = 26145` and `Fy = 0`. -/
theorem C3_calibration_point : RVGazimuth_man 5 0 0 165 = (26145, 0) :=
  RVGazimuth_man_calib

/-- Claim C4: the diagnostic of `RVGazimuth_man` fires exactly when
`|aoa| = |angle − atan2 v u| > 35·π/180`, and the returned `(Fx, Fy)`
pair is the same computation whether or not the diagnostic fires (the
warning branch only prints; the printed text cites a `±30 deg`
envelope, a string literal in the source). -/
theorem C4_warning_trigger (u v angle revs : ℝ) :
    ((RVGazimuth_man_full u v angle revs).2 = true ↔
      |angle - arctan2 v u| > 35 * Real.pi / 180) ∧
    (RVGazimuth_man_full u v angle revs).1 = RVGazimuth_man u v angle revs := by
  constructor
  · simp only [RVGazimuth_man_full, decide_eq_true_eq]
    rw [neg_add_eq_sub]
  · rfl

/-- Claim C6: `rad2pipi a` equals `atan2 (sin a) (cos a)`, lies in the
half-open interval `(-π, π]`, and is idempotent. -/
theorem C6_rad2pipi_props (a : ℝ) :
    rad2pipi a = arctan2 (Real.sin a) (Real.cos a) ∧
    rad2pipi a ∈ Set.Ioc (-Real.pi) Real.pi ∧
    rad2pipi (rad2pipi a) = rad2pipi a :=
  ⟨rfl, rad2pipi_mem_Ioc a, rad2pipi_eq_self (rad2pipi_mem_Ioc a)⟩

/-- Claim C7 (counterexample to the claim as stated): the clause
`R(-a) = R(a)ᵀ` fails for `Rotzyx`: at `angles = [π/2, π/2, 0]` the
matrix `Rotzyx (-angles)` differs from `(Rotzyx angles)ᵀ`, because
negating the Euler angles does not reverse the composition order. -/
theorem C7_counterexample :
    Rotzyx ![-(Real.pi / 2), -(Real.pi / 2), 0] ≠
      (Rotzyx ![Real.pi / 2, Real.pi / 2, 0])ᵀ := by
  intro h
  have h01 := congrFun (congrFun h 0) 1
  have hL : Rotzyx ![-(Real.pi / 2), -(Real.pi / 2), 0] 0 1 = 1 := by
    simp [Rotzyx, Rotx, Roty, Rotz, Matrix.mul_apply, Fin.sum_univ_three,
      Real.cos_pi_div_two, Real.sin_pi_div_two]
  have hR : (Rotzyx ![Real.pi / 2, Real.pi / 2, 0])ᵀ 0 1 = 0 := by
    simp [Matrix.transpose_apply, Rotzyx, Rotx, Roty, Rotz,
      Matrix.mul_apply, Fin.sum_univ_three,
      Real.cos_pi_div_two, Real.sin_pi_div_two]
  rw [hL, hR] at h01
  norm_num at h01

/-- Claim C7 (amended): `Rotx`, `Roty`, `Rotz` are orthonormal and
proper with `R 0 = 1`, `(R a)⁻¹ = R (-a) = (R a)ᵀ`; `Rotzyx` is
orthonormal and proper with `Rotzyx 0 = 1` and
`(Rotzyx angles)⁻¹ = (Rotzyx angles)ᵀ`, but without the `R(-a)`
clause, which fails for the composed rotation. -/
theorem C7_rotation_matrix_props (a : ℝ) (angles : Fin 3 → ℝ) :
    ((Rotx a)ᵀ * Rotx a = 1 ∧ (Rotx a).det = 1 ∧ Rotx 0 = 1 ∧
        (Rotx a)⁻¹ = Rotx (-a) ∧ Rotx (-a) = (Rotx a)ᵀ) ∧
    ((Roty a)ᵀ * Roty a = 1 ∧ (Roty a).det = 1 ∧ Roty 0 = 1 ∧
        (Roty a)⁻¹ = Roty (-a) ∧ Roty (-a) = (Roty a)ᵀ) ∧
    ((Rotz a)ᵀ * Rotz a = 1 ∧ (Rotz a).det = 1 ∧ Rotz 0 = 1 ∧
        (Rotz a)⁻¹ = Rotz (-a) ∧ Rotz (-a) = (Rotz a)ᵀ) ∧
    ((Rotzyx angles)ᵀ * Rotzyx angles = 1 ∧ (Rotzyx angles).det = 1 ∧
        Rotzyx ![0, 0, 0] = 1 ∧ (Rotzyx angles)⁻¹ = (Rotzyx angles)ᵀ) :=
  ⟨⟨Rotx_transpose_mul_self a, Rotx_det a, Rotx_zero, Rotx_inv a, Rotx_neg a⟩,
   ⟨Roty_transpose_mul_self a, Roty_det a, Roty_zero, Roty_inv a, Roty_neg a⟩,
   ⟨Rotz_transpose_mul_self a, Rotz_det a, Rotz_zero, Rotz_inv a, Rotz_neg a⟩,
   ⟨Rotzyx_transpose_mul_self angles, Rotzyx_det angles, Rotzyx_zero,
    Rotzyx_inv angles⟩⟩

/-- Claim C10: with zero inflow (`u = v = 0`) the inflow angle
`atan2 0 0` is `0`, all foil terms vanish, and `RVGazimuth_man`
returns exactly `(Ct·revs²·cos angle, Ct·revs²·sin angle)` with
`Ct = 2.2`, for every azimuth angle and revs. -/
theorem C10_zero_inflow (angle revs : ℝ) :
    arctan2 0 0 = 0 ∧
    RVGazimuth_man 0 0 angle revs =
      (2.2 * revs ^ 2 * Real.cos angle, 2.2 * revs ^ 2 * Real.sin angle) := by
  refine ⟨arctan2_zero_zero, ?_⟩
  have hsq : Real.sqrt ((0:ℝ) ^ 2 + 0 ^ 2) = 0 := by norm_num
  simp only [RVGazimuth_man, arctan2_zero_zero, hsq]
  norm_num [Prod.ext_iff]

end RVG4dof
